import Mathlib

/-!
Shallow embedding of the PsychDraw client's export pipeline
(`src/components/AnalysisDetail.tsx`) and analysis-history rendering
(`src/components/ClientDetail.tsx`), together with a model of the
status-reconciliation schedule described by the specification.

JavaScript strings are modelled as `String` (lists of characters); the
JavaScript `String.prototype.replace` with a string pattern (first
occurrence) and with a single-character global regex are modelled by
`replaceFirst` and `replaceAllC` below.  Nullable values are `Option`s,
and JavaScript falsiness of strings (null / undefined / "") is modelled
explicitly.
-/

namespace PsychDraw

/-! ### Character constants -/

def quotC : Char := Char.ofNat 34

def aposC : Char := Char.ofNat 39

/-! ### JavaScript string-operation models -/

/-- Global single-character replacement, the model of
`s.replace(/c/g, rep)` for a one-character pattern `c`. -/
def replaceAllC (c : Char) (rep : List Char) : List Char → List Char
  | [] => []
  | d :: ds => if d = c then rep ++ replaceAllC c rep ds else d :: replaceAllC c rep ds

/-- Is `pat` a prefix of `l`? -/
def hasPre : List Char → List Char → Bool
  | [], _ => true
  | _ :: _, [] => false
  | p :: ps, c :: cs => p == c && hasPre ps cs

/-- Does `pat` occur as a contiguous substring of `l`? -/
def containsSub (pat : List Char) : List Char → Bool
  | [] => hasPre pat []
  | c :: cs => hasPre pat (c :: cs) || containsSub pat cs

/-- Index of the first occurrence of `pat` in `l`, if any. -/
def idxOfSub (pat : List Char) : List Char → Option Nat
  | [] => if hasPre pat [] then some 0 else none
  | c :: cs =>
    if hasPre pat (c :: cs) then some 0
    else (idxOfSub pat cs).map Nat.succ

/-- First-occurrence replacement, the model of `s.replace(pat, rep)`
with a plain string pattern. -/
def replaceFirst (pat rep : List Char) : List Char → List Char
  | [] => if hasPre pat [] then rep else []
  | c :: cs =>
    if hasPre pat (c :: cs) then rep ++ (c :: cs).drop pat.length
    else c :: replaceFirst pat rep cs

def replaceFirstS (pat rep s : String) : String := ⟨replaceFirst pat.data rep.data s.data⟩

def containsSubS (pat s : String) : Bool := containsSub pat.data s.data

def idxOfSubS (pat s : String) : Option Nat := idxOfSub pat.data s.data

/-- JavaScript falsiness of a nullable string (`null`, `undefined` and
`""` are falsy). -/
def strFalsy : Option String → Bool
  | none => true
  | some s => s.isEmpty

/-- The model of `o || d` for a nullable string `o`. -/
def jsOr : Option String → String → String
  | none, d => d
  | some s, d => if s.isEmpty then d else s

/-! ### Data model (`AnalysisDetail.tsx`) -/

/-- The fetched analysis record (type `AnalysisDetails` in the source). -/
structure AnalysisDetails where
  id : String
  analysis_date : Option String
  temp_drawing_path : Option String
  client_name : Option String
  drawing_type_name : Option String

/-- The parsed result payload (interface `ParsedAnalysis` in the source). -/
structure ParsedAnalysis where
  summary : Option String
  drawing_type : Option String
  ai_disclaimer : Option String
  emotional_tone : Option String
  key_observations : Option (List String)
  relational_aspects : Option String
  potential_conflicts : Option (List String)
  potential_strengths : Option (List String)
  interpretive_indicators : Option (List String)
  developmental_considerations : Option String

/-! ### The HTML-escape helper and section renderers of `populateTemplate` -/

/-- Model of `escapeHtml` from `populateTemplate`: sequential global replacement of
ampersand, angle brackets, double quote and apostrophe, in source order. -/
def escapeHtml (s : String) : String :=
  ⟨replaceAllC aposC "&#039;".data
    (replaceAllC quotC "&quot;".data
      (replaceAllC '>' "&gt;".data
        (replaceAllC '<' "&lt;".data
          (replaceAllC '&' "&amp;".data s.data))))⟩

/-- Model of `escapeHtml(content).replace(/\n/g, '<br/>')`. -/
def safeContent (content : String) : String :=
  ⟨replaceAllC '\n' "<br/>".data (escapeHtml content).data⟩

/-- Model of `renderSection` from `populateTemplate` (text sections; absent or
empty content yields the empty string). -/
def renderSection (title : String) (content : Option String) : String :=
  if strFalsy content then ""
  else
    "\n            <section class=\"analysis-section\">\n                <h2>"
      ++ escapeHtml title
      ++ "</h2>\n                <div class=\"analysis-content\">\n                    <p>"
      ++ safeContent (jsOr content "")
      ++ "</p> \n                </div>\n            </section>\n        "

/-- JavaScript falsiness / emptiness test of `renderListSection`:
`!items || items.length === 0`. -/
def listAbsent : Option (List String) → Bool
  | none => true
  | some l => l.isEmpty

/-- Model of `renderListSection` from `populateTemplate`. -/
def renderListSection (title : String) (items : Option (List String)) : String :=
  if listAbsent items then ""
  else
    "\n            <section class=\"analysis-section\">\n                <h2>"
      ++ escapeHtml title
      ++ "</h2>\n                <div class=\"analysis-content\">\n                    <ul>"
      ++ String.join ((items.getD []).map fun item => "<li>" ++ escapeHtml item ++ "</li>")
      ++ "</ul>\n                </div>\n            </section>\n        "

/-- The `analysisSectionsHtml` accumulation of `populateTemplate`, in
source order. -/
def analysisSectionsHtml (pa : ParsedAnalysis) : String :=
  renderSection "Summary" pa.summary
    ++ renderSection "Emotional Tone" pa.emotional_tone
    ++ renderListSection "Key Observations" pa.key_observations
    ++ renderSection "Relational Aspects" pa.relational_aspects
    ++ renderListSection "Potential Conflicts" pa.potential_conflicts
    ++ renderListSection "Potential Strengths" pa.potential_strengths
    ++ renderListSection "Interpretive Indicators" pa.interpretive_indicators
    ++ renderSection "Developmental Considerations" pa.developmental_considerations

/-! ### The PDF HTML template and `populateTemplate` -/

/-- Model of `pdfHtmlTemplate` from the source (the placeholder braces are written
with character escapes). -/
def pdfHtmlTemplate : String :=
  "\n<div class=\"page\">\n    <!-- Report Header -->\n    <header class=\"report-header\">\n        <h1>Psychological Drawing Analysis Report</h1>\n        <div class=\"client-info\">\n            <div class=\"info-group\">\n                <div class=\"info-label\">Client Name:</div>\n                <div class=\"info-value\">\x7b\x7bCLIENT_NAME\x7d\x7d</div>\n            </div>\n            <div class=\"info-group\">\n                <div class=\"info-label\">Drawing Type:</div>\n                <div class=\"info-value\">\x7b\x7bDRAWING_TYPE\x7d\x7d</div>\n            </div>\n             <div class=\"info-group\">\n                <div class=\"info-label\">Analyst:</div>\n                <div class=\"info-value\">\x7b\x7bANALYST_NAME\x7d\x7d</div>\n            </div>\n            <div class=\"info-group\">\n                <div class=\"info-label\">Analysis Date:</div>\n                <div class=\"info-value\">\x7b\x7bANALYSIS_DATE\x7d\x7d</div>\n            </div>\n        </div>\n    </header>\n\n    <!-- Drawing Image Placeholder -->\n    <div class=\"drawing-image-container\">\n       \x7b\x7bDRAWING_IMAGE_TAG\x7d\x7d\n    </div>\n\n    <!-- Analysis Sections - Content will be placed here -->\n    \x7b\x7bANALYSIS_SECTIONS\x7d\x7d\n\n    <!-- Footer -->\n    <footer class=\"report-footer\">\n        Report generated by PsychDraw | \x7b\x7bGENERATION_DATE\x7d\x7d\n    </footer>\n</div>\n"

/-- The `<img>` tag built by `populateTemplate` for a non-empty signed URL
(the placeholder paragraph is the dead falsy branch of the ternary). -/
def drawingImageTag (url : String) (clientName : Option String) : String :=
  if url.isEmpty then
    "<p class=\"drawing-placeholder\">[Drawing image could not be loaded]</p>"
  else
    "<img src=\"" ++ url ++ "\" crossOrigin=\"anonymous\" alt=\"Drawing by "
      ++ escapeHtml (jsOr clientName "client") ++ "\" class=\"drawing-image\" />"

/-- Model of `analysis.analysis_date ? new Date(...).toLocaleDateString() : 'N/A'`;
the locale date formatting is an external capability passed as `fmtDate`. -/
def analysisDateStr (fmtDate : String → String) (d : Option String) : String :=
  match d with
  | none => "N/A"
  | some s => if s.isEmpty then "N/A" else fmtDate s

/-- Model of `populateTemplate` from `AnalysisDetail.tsx`: returns `""` when the
analysis record, the parsed payload or the image URL is missing, and
otherwise substitutes the template placeholders in source order.
`sessionEmail` models `session?.user?.email`, `fmtDate` models
`toLocaleDateString`, and `genDate` models the generation-date string. -/
def populateTemplate (analysis : Option AnalysisDetails)
    (parsedAnalysis : Option ParsedAnalysis) (drawingImageUrl : Option String)
    (sessionEmail : Option String) (fmtDate : String → String)
    (genDate : String) : String :=
  match analysis, parsedAnalysis, drawingImageUrl with
  | some a, some pa, some url =>
    if url.isEmpty then ""
    else
      let userEmail := jsOr sessionEmail "Unknown Analyst"
      replaceFirstS "\x7b\x7bGENERATION_DATE\x7d\x7d" genDate
        (replaceFirstS "\x7b\x7bANALYSIS_SECTIONS\x7d\x7d" (analysisSectionsHtml pa)
          (replaceFirstS "\x7b\x7bDRAWING_IMAGE_TAG\x7d\x7d" (drawingImageTag url a.client_name)
            (replaceFirstS "\x7b\x7bANALYST_NAME\x7d\x7d" (escapeHtml userEmail)
              (replaceFirstS "\x7b\x7bDRAWING_TYPE\x7d\x7d" (escapeHtml (jsOr a.drawing_type_name "N/A"))
                (replaceFirstS "\x7b\x7bANALYSIS_DATE\x7d\x7d" (analysisDateStr fmtDate a.analysis_date)
                  (replaceFirstS "\x7b\x7bCLIENT_NAME\x7d\x7d" (escapeHtml (jsOr a.client_name "N/A"))
                    pdfHtmlTemplate))))))
  | _, _, _ => ""

/-! ### The paginator of `handleExportPdf` (steps 1-3 of the export loop)

The bitmap delivered by `html2canvas` has natural pixel dimensions; page
geometry is in points, modelled by rationals.  `pdfMargin = 40` in the
source; the page size comes from jsPDF's A4 format. -/

def pdfMargin : ℚ := 40

/-- jsPDF A4 page width in points. -/
def a4Width : ℚ := 595.28

/-- jsPDF A4 page height in points. -/
def a4Height : ℚ := 841.89

/-- Model of `pageWidth - 2 * pdfMargin`: the width available within margins. -/
def pdfImageWidth (pageWidth margin : ℚ) : ℚ := pageWidth - 2 * margin

/-- Model of `(imgProps.height * pdfImageWidth) / imgProps.width`: total height of
the scaled image. -/
def pdfImageHeight (pageWidth margin : ℚ) (bitmapWidth bitmapHeight : ℕ) : ℚ :=
  (bitmapHeight * pdfImageWidth pageWidth margin) / bitmapWidth

/-- Model of `pageHeight - 2 * pdfMargin`: max content height per page within
margins. -/
def pageContentHeight (pageHeight margin : ℚ) : ℚ := pageHeight - 2 * margin

/-- Model of `Math.ceil(pdfImageHeight / pageContentHeight)`: the page count the
code computes. -/
def numPages (pageWidth pageHeight margin : ℚ) (bitmapWidth bitmapHeight : ℕ) : ℤ :=
  ⌈pdfImageHeight pageWidth margin bitmapWidth bitmapHeight /
    pageContentHeight pageHeight margin⌉

/-- The `for (let i = 1; i <= numPages; i++)` loop: each iteration places
the full scaled image at `(pdfMargin, position)` on a fresh page and then
decrements `position` by `pageHeight`.  The returned list is the sequence
of `(x, y)` placements in emission order. -/
def drawPages (pageHeight margin : ℚ) : ℕ → ℚ → List (ℚ × ℚ)
  | 0, _ => []
  | n + 1, position => (margin, position) :: drawPages pageHeight margin n (position - pageHeight)

/-- All page placements of one export, starting from `position = pdfMargin`. -/
def pdfPages (pageWidth pageHeight margin : ℚ) (bitmapWidth bitmapHeight : ℕ) :
    List (ℚ × ℚ) :=
  drawPages pageHeight margin
    (numPages pageWidth pageHeight margin bitmapWidth bitmapHeight).toNat margin

/-! ### The export pipeline (`handleExportPdf`) -/

/-- Outcome of the awaited iframe load (`onload`, the 7000 ms timeout
path, or `onerror`). -/
inductive LoadOutcome
  | onLoad
  | timedOut
  | onError
deriving DecidableEq

/-- The environment of one export run: the behaviour of the external
capabilities (iframe document, `.page` lookup, `html2canvas`) and the
captured bitmap's pixel dimensions. -/
structure ExportEnv where
  loadOutcome : LoadOutcome
  docAccessible : Bool
  pageElementFound : Bool
  captureError : Option String
  bitmapWidth : ℕ
  bitmapHeight : ℕ
  todayISO : String

/-- Observable outcome of one `handleExportPdf` invocation. -/
structure ExportResult where
  errorMsg : Option String
  sandboxCreated : Bool
  sandboxRemoved : Bool
  savedFile : Option String
  pages : List (ℚ × ℚ)

/-- Model of the `/\s+/g → '_'` replacement used in the file name (the flag records
whether the previous character was part of a whitespace run). -/
def wsRunsAux : Bool → List Char → List Char
  | _, [] => []
  | prevWs, c :: cs =>
    if c.isWhitespace then
      if prevWs then wsRunsAux true cs else Char.ofNat 95 :: wsRunsAux true cs
    else c :: wsRunsAux false cs

def wsToUnderscore (s : String) : String := ⟨wsRunsAux false s.data⟩

/-- The file name `Report-<name with whitespace runs replaced by '_'>-<ISO date>.pdf`. -/
def exportFilename (a : AnalysisDetails) (todayISO : String) : String :=
  "Report-"
    ++ (match a.client_name with
        | none => "Client"
        | some n => if n.isEmpty then "Client" else wsToUnderscore n)
    ++ "-" ++ todayISO ++ ".pdf"

/-- The error-message prefix applied by the `catch` block. -/
def exportErrorPrefix : String := "Failed to export PDF: "

/-- The `try` block of `handleExportPdf` after the sandbox iframe has been
appended: await the load, access the iframe document, find `.page`,
rasterize, paginate and name the file.  Failures are the thrown error
messages of the source. -/
def exportBody (a : AnalysisDetails) (env : ExportEnv) :
    Except String (String × List (ℚ × ℚ)) :=
  match env.loadOutcome with
  | LoadOutcome.onError => Except.error "Failed to load iframe content for PDF generation."
  | _ =>
    if !env.docAccessible then Except.error "Could not access iframe document."
    else if !env.pageElementFound then
      Except.error "Could not find .page element within the iframe content."
    else
      match env.captureError with
      | some msg => Except.error msg
      | none =>
        Except.ok (exportFilename a env.todayISO,
          pdfPages a4Width a4Height pdfMargin env.bitmapWidth env.bitmapHeight)

/-- The early-return result of the missing-precondition guard (before the
iframe is created). -/
def missingDataResult : ExportResult :=
  { errorMsg := some "Analysis data, parsed results, or drawing image is missing for PDF export."
    sandboxCreated := false
    sandboxRemoved := false
    savedFile := none
    pages := [] }

/-- Model of `handleExportPdf`: guard on the three required inputs, create the
hidden iframe, run the try block, and in all cases execute the `finally`
block, which removes the iframe from the document. -/
def handleExportPdf (analysis : Option AnalysisDetails)
    (parsedAnalysis : Option ParsedAnalysis) (drawingImageUrl : Option String)
    (env : ExportEnv) : ExportResult :=
  match analysis, drawingImageUrl, parsedAnalysis with
  | some a, some url, some _ =>
    if url.isEmpty then missingDataResult
    else
      match exportBody a env with
      | Except.ok (fname, ps) =>
        { errorMsg := none, sandboxCreated := true, sandboxRemoved := true,
          savedFile := some fname, pages := ps }
      | Except.error msg =>
        { errorMsg := some (exportErrorPrefix ++ msg), sandboxCreated := true,
          sandboxRemoved := true, savedFile := none, pages := [] }
  | _, _, _ => missingDataResult

/-! ### Analysis-history rendering (`ClientDetail.tsx`) -/

/-- One row of the analysis-history query (`drawing_processed` is
`boolean | null` in the generated database types). -/
structure AnalysisListItem where
  id : String
  title : Option String
  drawing_type_name : Option String
  analysis_date : Option String
  drawing_processed : Option Bool

/-- Model of `const showProcessedIcon = analysis.drawing_processed` used as a
JavaScript truth value (`null` is falsy). -/
def showProcessedIcon (a : AnalysisListItem) : Bool :=
  match a.drawing_processed with
  | some b => b
  | none => false

/-- The two icons a history row can show: the processed/complete
indicator or the animated spinner. -/
inductive HistoryIcon
  | clipboardList
  | loader2
deriving DecidableEq

/-- Model of `showProcessedIcon ? ClipboardList : Loader2`. -/
def itemIcon (a : AnalysisListItem) : HistoryIcon :=
  if showProcessedIcon a then HistoryIcon.clipboardList else HistoryIcon.loader2

/-- A row is rendered as a navigable link only when processed; otherwise
as an inert spinner row. -/
def itemIsLink (a : AnalysisListItem) : Bool := showProcessedIcon a

/-! ### Status reconciliation engine

Modelled from the spec: the Status Reconciliation Engine of §4.1 (the
per-job visual stages `Analyzing → Generating → Finalizing → Complete`
with timer delays 9, 3 and 1, gated on the authoritative completion
flag) is not present under `src/`; only its authoritative flag
(`drawing_processed`) and the derived history icon are.  The model below
follows the spec's words: time is discrete, `arrival` is the time at
which the push update flips `backendComplete` to true (`none` if it
never arrives), each stage's timer fires after its fixed delay, and the
`Finalizing → Complete` transition is withheld while the flag is false
and re-attempted once it flips. -/

inductive Stage
  | analyzing
  | generating
  | finalizing
  | complete
deriving DecidableEq

/-- Modelled from the spec: the authoritative completion flag at time
`t`, monotonic false → true at the arrival time of the push update. -/
def backendCompleteAt (arrival : Option ℕ) (t : ℕ) : Bool :=
  match arrival with
  | none => false
  | some a => decide (a ≤ t)

/-- Modelled from the spec: one unit-time step of the engine.  The second
component counts time spent in the current stage; a stage's timer fires
when its delay (9, 3 or 1) has elapsed, and the final transition also
requires the completion flag. -/
def engineStep (bc : Bool) : Stage × ℕ → Stage × ℕ
  | (Stage.analyzing, k) =>
    if 9 ≤ k + 1 then (Stage.generating, 0) else (Stage.analyzing, k + 1)
  | (Stage.generating, k) =>
    if 3 ≤ k + 1 then (Stage.finalizing, 0) else (Stage.generating, k + 1)
  | (Stage.finalizing, k) =>
    if 1 ≤ k + 1 && bc then (Stage.complete, 0) else (Stage.finalizing, k + 1)
  | (Stage.complete, k) => (Stage.complete, k)

/-- Modelled from the spec: the engine state over time for a job first
observed with `backendComplete = false` (initial stage `Analyzing`). -/
def engineState (arrival : Option ℕ) : ℕ → Stage × ℕ
  | 0 => (Stage.analyzing, 0)
  | t + 1 => engineStep (backendCompleteAt arrival (t + 1)) (engineState arrival t)

/-- Modelled from the spec: the user-visible stage at time `t`. -/
def visualStage (arrival : Option ℕ) (t : ℕ) : Stage := (engineState arrival t).1

/-- Closed form of `engineState`, proved equal to it below. -/
def engineClosed (arrival : Option ℕ) (t : ℕ) : Stage × ℕ :=
  if t < 9 then (Stage.analyzing, t)
  else if t < 12 then (Stage.generating, t - 9)
  else if 13 ≤ t ∧ backendCompleteAt arrival t = true then (Stage.complete, 0)
  else (Stage.finalizing, t - 12)

/-! ### Engine lemmas -/

theorem backendCompleteAt_mono (arrival : Option ℕ) (t : ℕ)
    (h : backendCompleteAt arrival t = true) :
    backendCompleteAt arrival (t + 1) = true := by
  cases arrival with
  | none => simp [backendCompleteAt] at h
  | some a =>
    simp only [backendCompleteAt, decide_eq_true_eq] at h ⊢
    omega

theorem engineState_eq_closed (arrival : Option ℕ) (t : ℕ) :
    engineState arrival t = engineClosed arrival t := by
  induction t with
  | zero => simp [engineState, engineClosed]
  | succ t ih =>
    have hstep : engineState arrival (t + 1)
        = engineStep (backendCompleteAt arrival (t + 1)) (engineState arrival t) := rfl
    rw [hstep, ih]
    by_cases h9 : t < 9
    · by_cases h9s : t + 1 < 9
      · have : ¬ 9 ≤ t + 1 := by omega
        simp [engineClosed, engineStep, h9, h9s, this]
      · have ht8 : t = 8 := by omega
        subst ht8
        simp [engineClosed, engineStep]
    · by_cases h12 : t < 12
      · by_cases h12s : t + 1 < 12
        · have : ¬ 3 ≤ t - 9 + 1 := by omega
          have h9s : ¬ t + 1 < 9 := by omega
          simp [engineClosed, engineStep, h9, h12, h9s, h12s, this]
          omega
        · have ht11 : t = 11 := by omega
          subst ht11
          simp [engineClosed, engineStep]
      · -- t ≥ 12
        have h9s : ¬ t + 1 < 9 := by omega
        have h12s : ¬ t + 1 < 12 := by omega
        have h13s : 13 ≤ t + 1 := by omega
        by_cases hc : 13 ≤ t ∧ backendCompleteAt arrival t = true
        · have hbc : backendCompleteAt arrival (t + 1) = true :=
            backendCompleteAt_mono arrival t hc.2
          simp [engineClosed, engineStep, h9, h12, h9s, h12s, h13s, hc, hbc]
        · by_cases hbc : backendCompleteAt arrival (t + 1) = true
          · simp [engineClosed, engineStep, h9, h12, h9s, h12s, h13s, hc, hbc]
          · simp [engineClosed, engineStep, h9, h12, h9s, h12s, h13s, hc, hbc]
            omega

/-! ### Concrete fixtures used by the claim theorems -/

def scriptStr : String := "<script>alert(1)</script>"

def escScriptStr : String := "&lt;script&gt;alert(1)&lt;/script&gt;"

def emptyPayload : ParsedAnalysis :=
  { summary := none, drawing_type := none, ai_disclaimer := none,
    emotional_tone := none, key_observations := none, relational_aspects := none,
    potential_conflicts := none, potential_strengths := none,
    interpretive_indicators := none, developmental_considerations := none }

def sampleRecord : AnalysisDetails :=
  { id := "a1", analysis_date := some "2024-05-01",
    temp_drawing_path := some "path/img.png", client_name := some "Jane Doe",
    drawing_type_name := some "House-Tree-Person" }

def sampleUrl : String := "https://example.com/img.png"

def fmtDateC : String → String := fun _ => "5/1/2024"

def scriptHeaderRecord : AnalysisDetails :=
  { sampleRecord with client_name := some scriptStr, drawing_type_name := some scriptStr }

def scriptPayloadA : ParsedAnalysis :=
  { emptyPayload with
    summary := some scriptStr
    emotional_tone := some scriptStr
    key_observations := some [scriptStr]
    relational_aspects := some scriptStr }

def scriptPayloadB : ParsedAnalysis :=
  { emptyPayload with
    potential_conflicts := some [scriptStr]
    potential_strengths := some [scriptStr]
    interpretive_indicators := some [scriptStr]
    developmental_considerations := some scriptStr }

def scriptHeaderOut : String :=
  populateTemplate (some scriptHeaderRecord) (some emptyPayload) (some sampleUrl)
    (some scriptStr) fmtDateC "5/2/2024"

def orderPayloadA : ParsedAnalysis :=
  { emptyPayload with
    summary := some "S"
    emotional_tone := some "T"
    key_observations := some ["K"]
    relational_aspects := some "R" }

def orderPayloadB : ParsedAnalysis :=
  { emptyPayload with
    potential_conflicts := some ["C"]
    potential_strengths := some ["P"]
    interpretive_indicators := some ["I"]
    developmental_considerations := some "D" }

def conflictPayload : ParsedAnalysis :=
  { emptyPayload with
    relational_aspects := some "About relations"
    potential_conflicts := some ["A conflict"] }

def disclaimerSentinel : String := "DISCLAIMER-SENTINEL-123"

def disclaimerOut : String :=
  populateTemplate (some sampleRecord)
    (some { emptyPayload with ai_disclaimer := some disclaimerSentinel })
    (some sampleUrl) (some "doc@example.com") fmtDateC "5/2/2024"

def okEnv : ExportEnv :=
  { loadOutcome := LoadOutcome.onLoad, docAccessible := true, pageElementFound := true,
    captureError := none, bitmapWidth := 800, bitmapHeight := 1200,
    todayISO := "2024-05-01" }

def zeroHeightEnv : ExportEnv := { okEnv with bitmapHeight := 0 }

/-- Characters that `escapeHtml` output can never contain: raw angle
brackets, double quote and apostrophe. -/
def noRawMarkup (s : String) : Bool :=
  s.data.all fun c => !(c == '<' || c == '>' || c == quotC || c == aposC)

/-- The eight section blocks of `analysisSectionsHtml`, as a list in the
fixed source order. -/
def sectionBlocks (pa : ParsedAnalysis) : List String :=
  [renderSection "Summary" pa.summary,
   renderSection "Emotional Tone" pa.emotional_tone,
   renderListSection "Key Observations" pa.key_observations,
   renderSection "Relational Aspects" pa.relational_aspects,
   renderListSection "Potential Conflicts" pa.potential_conflicts,
   renderListSection "Potential Strengths" pa.potential_strengths,
   renderListSection "Interpretive Indicators" pa.interpretive_indicators,
   renderSection "Developmental Considerations" pa.developmental_considerations]

/-! ### Helper lemmas -/

theorem not_mem_replaceAllC_self (c : Char) (rep : List Char) (h : c ∉ rep) :
    ∀ l, c ∉ replaceAllC c rep l := by
  intro l
  induction l with
  | nil => simp [replaceAllC]
  | cons d ds ih =>
    by_cases hd : d = c
    · simp [replaceAllC, hd, List.mem_append, h, ih]
    · simp only [replaceAllC, if_neg hd, List.mem_cons]
      rintro (rfl | hm)
      · exact hd rfl
      · exact ih hm

theorem not_mem_replaceAllC (x c : Char) (rep : List Char) (hrep : x ∉ rep) :
    ∀ l, x ∉ l → x ∉ replaceAllC c rep l := by
  intro l
  induction l with
  | nil => simp [replaceAllC]
  | cons d ds ih =>
    intro hl
    have hd : x ≠ d := fun h => hl (h ▸ List.mem_cons_self d ds)
    have hds : x ∉ ds := fun h => hl (List.mem_cons_of_mem d h)
    by_cases hdc : d = c
    · simp only [replaceAllC, if_pos hdc, List.mem_append]
      rintro (hm | hm)
      · exact hrep hm
      · exact ih hds hm
    · simp only [replaceAllC, if_neg hdc, List.mem_cons]
      rintro (rfl | hm)
      · exact hd rfl
      · exact ih hds hm

theorem escapeHtml_noRawMarkup (s : String) : noRawMarkup (escapeHtml s) = true := by
  have hlt1 :
      '<' ∉ replaceAllC '<' "&lt;".data (replaceAllC '&' "&amp;".data s.data) :=
    not_mem_replaceAllC_self _ _ (by decide) _
  have hlt2 : '<' ∉ replaceAllC '>' "&gt;".data
      (replaceAllC '<' "&lt;".data (replaceAllC '&' "&amp;".data s.data)) :=
    not_mem_replaceAllC _ _ _ (by decide) _ hlt1
  have hlt3 : '<' ∉ replaceAllC quotC "&quot;".data (replaceAllC '>' "&gt;".data
      (replaceAllC '<' "&lt;".data (replaceAllC '&' "&amp;".data s.data))) :=
    not_mem_replaceAllC _ _ _ (by decide) _ hlt2
  have hlt4 : '<' ∉ (escapeHtml s).data :=
    not_mem_replaceAllC _ _ _ (by decide) _ hlt3
  have hgt2 : '>' ∉ replaceAllC '>' "&gt;".data
      (replaceAllC '<' "&lt;".data (replaceAllC '&' "&amp;".data s.data)) :=
    not_mem_replaceAllC_self _ _ (by decide) _
  have hgt3 : '>' ∉ replaceAllC quotC "&quot;".data (replaceAllC '>' "&gt;".data
      (replaceAllC '<' "&lt;".data (replaceAllC '&' "&amp;".data s.data))) :=
    not_mem_replaceAllC _ _ _ (by decide) _ hgt2
  have hgt4 : '>' ∉ (escapeHtml s).data :=
    not_mem_replaceAllC _ _ _ (by decide) _ hgt3
  have hq3 : quotC ∉ replaceAllC quotC "&quot;".data (replaceAllC '>' "&gt;".data
      (replaceAllC '<' "&lt;".data (replaceAllC '&' "&amp;".data s.data))) :=
    not_mem_replaceAllC_self _ _ (by decide) _
  have hq4 : quotC ∉ (escapeHtml s).data :=
    not_mem_replaceAllC _ _ _ (by decide) _ hq3
  have ha4 : aposC ∉ (escapeHtml s).data :=
    not_mem_replaceAllC_self _ _ (by decide) _
  rw [noRawMarkup, List.all_eq_true]
  intro c hc
  have h1 : ¬ c = '<' := fun h => hlt4 (h ▸ hc)
  have h2 : ¬ c = '>' := fun h => hgt4 (h ▸ hc)
  have h3 : ¬ c = quotC := fun h => hq4 (h ▸ hc)
  have h4 : ¬ c = aposC := fun h => ha4 (h ▸ hc)
  simp [h1, h2, h3, h4]

theorem drawPages_length (ph m : ℚ) :
    ∀ (n : ℕ) (pos : ℚ), (drawPages ph m n pos).length = n := by
  intro n
  induction n with
  | zero => intro pos; rfl
  | succ k ih => intro pos; simp [drawPages, ih]

theorem drawPages_get (ph m : ℚ) :
    ∀ (n : ℕ) (pos : ℚ) (i : ℕ) (hi : i < (drawPages ph m n pos).length),
      (drawPages ph m n pos).get ⟨i, hi⟩ = (m, pos - i * ph) := by
  intro n
  induction n with
  | zero => intro pos i hi; simp [drawPages] at hi
  | succ k ih =>
    intro pos i hi
    cases i with
    | zero => simp [drawPages]
    | succ j =>
      have hj : j < (drawPages ph m k (pos - ph)).length := by
        rw [drawPages_length] at hi ⊢
        omega
      have hgs : (drawPages ph m (k + 1) pos).get ⟨j + 1, hi⟩
          = (drawPages ph m k (pos - ph)).get ⟨j, hj⟩ := rfl
      rw [hgs, ih (pos - ph) j hj]
      have : pos - ph - (j : ℚ) * ph = pos - ((j : ℚ) + 1) * ph := by ring
      rw [this]
      push_cast
      ring_nf

/-- The page count of the spec's worked example, as the code computes it:
`ceil(3090 / 762) = 5`. -/
theorem numPages_1000_6000 : numPages 595 842 40 1000 6000 = 5 := by
  have h1 : pdfImageHeight 595 40 1000 6000 = 3090 := by
    norm_num [pdfImageHeight, pdfImageWidth]
  rw [numPages, pageContentHeight, h1]
  have h2 : (842 : ℚ) - 2 * 40 = 762 := by norm_num
  rw [h2, Int.ceil_eq_iff]
  norm_num

/-! ### Claim theorems -/

/-- C1 (counterexample).  The claim states that the paginator computes
`numPages = ceil(scaledHeight / pageHeight)` against the full page height,
yielding 4 pages for `bitmapWidth = 1000, bitmapHeight = 6000,
pageWidth = 595, pageHeight = 842, margin = 40`.  The code divides by
`pageContentHeight = pageHeight - 2 * margin = 762` instead
(`AnalysisDetail.tsx` line 418), yielding 5 pages on that input, so the
claimed formula and page count are both wrong. -/
theorem c1_counterexample :
    numPages 595 842 40 1000 6000 = 5 ∧
    (⌈pdfImageHeight 595 40 1000 6000 / (842 : ℚ)⌉ : ℤ) = 4 ∧
    numPages 595 842 40 1000 6000 ≠ ⌈pdfImageHeight 595 40 1000 6000 / (842 : ℚ)⌉ := by
  have h1 : pdfImageHeight 595 40 1000 6000 = 3090 := by
    norm_num [pdfImageHeight, pdfImageWidth]
  have h4 : (⌈pdfImageHeight 595 40 1000 6000 / (842 : ℚ)⌉ : ℤ) = 4 := by
    rw [h1, Int.ceil_eq_iff]
    norm_num
  refine ⟨numPages_1000_6000, h4, ?_⟩
  rw [numPages_1000_6000, h4]
  norm_num

/-- C1 (amended).  For every captured bitmap, the paginator computes
`numPages = ceil(scaledHeight / pageContentHeight)` where
`pageContentHeight = pageHeight - 2 * margin`; in particular, for
`bitmapWidth = 1000, bitmapHeight = 6000, pageWidth = 595,
pageHeight = 842, margin = 40` (so `contentWidth = 515` and
`scaledHeight = 3090`) it emits exactly 5 pages. -/
theorem c1_numPages_uses_content_height :
    (∀ (pw ph m : ℚ) (bw bh : ℕ),
      numPages pw ph m bw bh = ⌈((bh : ℚ) * (pw - 2 * m) / (bw : ℚ)) / (ph - 2 * m)⌉) ∧
    pdfImageWidth 595 40 = 515 ∧
    pdfImageHeight 595 40 1000 6000 = 3090 ∧
    numPages 595 842 40 1000 6000 = 5 := by
  refine ⟨fun pw ph m bw bh => rfl, by norm_num [pdfImageWidth], ?_, numPages_1000_6000⟩
  norm_num [pdfImageHeight, pdfImageWidth]

/-- C6.  For page `i` (1-indexed) of the paginated document, the loop
places the one full scaled image at horizontal offset `margin` and
vertical offset `margin - (i-1)*pageHeight`, and emits pages strictly in
order `1..numPages` with none reordered or skipped: the emitted placement
list has exactly `numPages` entries and its 0-indexed `i`-th entry is
`(margin, margin - i*pageHeight)`. -/
theorem c6_pages_in_order (pw ph m : ℚ) (bw bh : ℕ) :
    (pdfPages pw ph m bw bh).length = (numPages pw ph m bw bh).toNat ∧
    ∀ (i : ℕ) (hi : i < (pdfPages pw ph m bw bh).length),
      (pdfPages pw ph m bw bh).get ⟨i, hi⟩ = (m, m - i * ph) := by
  refine ⟨drawPages_length ph m _ m, ?_⟩
  intro i hi
  exact drawPages_get ph m ((numPages pw ph m bw bh).toNat) m i hi

/-- C6 (witness).  On the spec's worked example the second emitted
page places the image at `(40, 40 - 842)`. -/
theorem c6_pages_in_order_witness :
    (pdfPages 595 842 40 1000 6000).getD 1 (0, 0) = (40, 40 - 1 * 842) := by
  have h := c6_pages_in_order 595 842 40 1000 6000
  have hlen : (pdfPages 595 842 40 1000 6000).length = 5 := by
    rw [h.1, numPages_1000_6000]
    rfl
  have hi : 1 < (pdfPages 595 842 40 1000 6000).length := by
    rw [hlen]
    norm_num
  have hg := h.2 1 hi
  rw [List.getD_eq_get _ _ hi, hg]
  norm_num

/-- C4 (counterexample).  The claim states that a zero-height captured
bitmap makes the export fail with a specific pagination error, without a
page count of zero and without saving a document.  On a zero-height
capture the code reports no error, computes `numPages = 0`, draws no page
image, and still saves the file. -/
theorem c4_counterexample :
    (handleExportPdf (some sampleRecord) (some emptyPayload) (some sampleUrl)
      zeroHeightEnv).errorMsg = none ∧
    (handleExportPdf (some sampleRecord) (some emptyPayload) (some sampleUrl)
      zeroHeightEnv).savedFile = some "Report-Jane_Doe-2024-05-01.pdf" ∧
    (handleExportPdf (some sampleRecord) (some emptyPayload) (some sampleUrl)
      zeroHeightEnv).pages = [] ∧
    numPages a4Width a4Height pdfMargin 800 0 = 0 := by
  have hnum : numPages a4Width a4Height pdfMargin 800 0 = 0 := by
    simp [numPages, pdfImageHeight]
  refine ⟨rfl, rfl, ?_, hnum⟩
  have hp : (handleExportPdf (some sampleRecord) (some emptyPayload) (some sampleUrl)
      zeroHeightEnv).pages = pdfPages a4Width a4Height pdfMargin 800 0 := rfl
  rw [hp, pdfPages, hnum]
  rfl

/-- C4 (amended).  If the captured bitmap has zero height (and the
earlier stages succeed), the export pipeline does not fail and performs no
division error: it computes a page count of zero, draws no page image, and
still saves the (blank) document. -/
theorem c4_zero_height_saves_blank (a : AnalysisDetails) (pa : ParsedAnalysis)
    (url : String) (env : ExportEnv)
    (hurl : url.isEmpty = false)
    (hload : env.loadOutcome ≠ LoadOutcome.onError)
    (hdoc : env.docAccessible = true)
    (hpage : env.pageElementFound = true)
    (hcap : env.captureError = none)
    (hbh : env.bitmapHeight = 0) :
    (handleExportPdf (some a) (some pa) (some url) env).errorMsg = none ∧
    (handleExportPdf (some a) (some pa) (some url) env).pages = [] ∧
    (handleExportPdf (some a) (some pa) (some url) env).savedFile
      = some (exportFilename a env.todayISO) ∧
    numPages a4Width a4Height pdfMargin env.bitmapWidth env.bitmapHeight = 0 := by
  have hnum : numPages a4Width a4Height pdfMargin env.bitmapWidth env.bitmapHeight = 0 := by
    rw [hbh]
    simp [numPages, pdfImageHeight]
  have hbody : exportBody a env
      = Except.ok (exportFilename a env.todayISO,
          pdfPages a4Width a4Height pdfMargin env.bitmapWidth env.bitmapHeight) := by
    cases h : env.loadOutcome with
    | onError => exact absurd h hload
    | onLoad => simp [exportBody, h, hdoc, hpage, hcap]
    | timedOut => simp [exportBody, h, hdoc, hpage, hcap]
  have hrun : handleExportPdf (some a) (some pa) (some url) env
      = { errorMsg := none, sandboxCreated := true, sandboxRemoved := true,
          savedFile := some (exportFilename a env.todayISO),
          pages := pdfPages a4Width a4Height pdfMargin env.bitmapWidth env.bitmapHeight } := by
    simp [handleExportPdf, hurl, hbody]
  rw [hrun]
  refine ⟨rfl, ?_, rfl, hnum⟩
  show pdfPages a4Width a4Height pdfMargin env.bitmapWidth env.bitmapHeight = []
  rw [pdfPages, hnum]
  rfl

/-- C4 (amended, witness). -/
theorem c4_zero_height_saves_blank_witness :
    (handleExportPdf (some sampleRecord) (some emptyPayload) (some sampleUrl)
      zeroHeightEnv).pages = [] ∧
    (handleExportPdf (some sampleRecord) (some emptyPayload) (some sampleUrl)
      zeroHeightEnv).errorMsg = none :=
  ⟨(c4_zero_height_saves_blank sampleRecord emptyPayload sampleUrl zeroHeightEnv
      rfl (by decide) rfl rfl rfl rfl).2.1,
   (c4_zero_height_saves_blank sampleRecord emptyPayload sampleUrl zeroHeightEnv
      rfl (by decide) rfl rfl rfl rfl).1⟩

/-- C9.  On every execution of the export pipeline in which the hidden
iframe sandbox was created, the sandbox is removed from the document
before `handleExportPdf` returns — whether the run succeeds, times out on
image load, or fails at any stage (the `finally` block runs on every exit
path of the `try`). -/
theorem c9_sandbox_always_removed (analysis : Option AnalysisDetails)
    (parsedAnalysis : Option ParsedAnalysis) (drawingImageUrl : Option String)
    (env : ExportEnv)
    (h : (handleExportPdf analysis parsedAnalysis drawingImageUrl env).sandboxCreated = true) :
    (handleExportPdf analysis parsedAnalysis drawingImageUrl env).sandboxRemoved = true := by
  rcases analysis with _ | a
  · exact absurd h (by simp [handleExportPdf, missingDataResult])
  rcases drawingImageUrl with _ | url
  · exact absurd h (by simp [handleExportPdf, missingDataResult])
  rcases parsedAnalysis with _ | pa
  · exact absurd h (by simp [handleExportPdf, missingDataResult])
  by_cases hurl : url.isEmpty
  · exact absurd h (by simp [handleExportPdf, hurl, missingDataResult])
  · rcases hb : exportBody a env with msg | pair
    · simp [handleExportPdf, hurl, hb]
    · simp [handleExportPdf, hurl, hb]

/-- C9 (witness).  A concrete successful run creates and removes the
sandbox. -/
theorem c9_sandbox_always_removed_witness :
    (handleExportPdf (some sampleRecord) (some emptyPayload) (some sampleUrl)
      okEnv).sandboxRemoved = true :=
  c9_sandbox_always_removed (some sampleRecord) (some emptyPayload) (some sampleUrl)
    okEnv rfl

/-- C10.  Whenever the analysis record, the parsed payload or the
resolved image URL is `null` (including the case where only the URL is
missing), `handleExportPdf` sets the missing-data error message and
returns before the iframe sandbox is created and before any file is
saved, and `populateTemplate` returns the empty string. -/
theorem c10_missing_inputs_fail_fast (analysis : Option AnalysisDetails)
    (parsedAnalysis : Option ParsedAnalysis) (drawingImageUrl : Option String)
    (env : ExportEnv) (sessionEmail : Option String)
    (fmtDate : String → String) (genDate : String)
    (h : analysis = none ∨ parsedAnalysis = none ∨ drawingImageUrl = none) :
    (handleExportPdf analysis parsedAnalysis drawingImageUrl env).errorMsg
      = some "Analysis data, parsed results, or drawing image is missing for PDF export." ∧
    (handleExportPdf analysis parsedAnalysis drawingImageUrl env).sandboxCreated = false ∧
    (handleExportPdf analysis parsedAnalysis drawingImageUrl env).savedFile = none ∧
    populateTemplate analysis parsedAnalysis drawingImageUrl sessionEmail fmtDate genDate
      = "" := by
  have hrun : handleExportPdf analysis parsedAnalysis drawingImageUrl env
      = missingDataResult := by
    rcases h with rfl | rfl | rfl
    · rfl
    · rcases analysis with _ | a
      · rfl
      rcases drawingImageUrl with _ | url
      · rfl
      · simp [handleExportPdf]
    · rcases analysis with _ | a
      · rfl
      rcases parsedAnalysis with _ | pa
      · rfl
      · rfl
  have hpop : populateTemplate analysis parsedAnalysis drawingImageUrl sessionEmail
      fmtDate genDate = "" := by
    rcases h with rfl | rfl | rfl
    · rfl
    · rcases analysis with _ | a
      · rfl
      rcases drawingImageUrl with _ | url
      · rfl
      · rfl
    · rcases analysis with _ | a
      · rfl
      rcases parsedAnalysis with _ | pa
      · rfl
      · rfl
  rw [hrun]
  exact ⟨rfl, rfl, rfl, hpop⟩

/-- C10 (witness).  The image URL alone missing suffices: the export
errors out without creating the sandbox and the template renders as
empty. -/
theorem c10_missing_inputs_fail_fast_witness :
    (handleExportPdf (some sampleRecord) (some emptyPayload) none okEnv).errorMsg
      = some "Analysis data, parsed results, or drawing image is missing for PDF export." ∧
    (handleExportPdf (some sampleRecord) (some emptyPayload) none okEnv).sandboxCreated
      = false ∧
    (handleExportPdf (some sampleRecord) (some emptyPayload) none okEnv).savedFile
      = none ∧
    populateTemplate (some sampleRecord) (some emptyPayload) none (some "doc@example.com")
      fmtDateC "5/2/2024" = "" :=
  c10_missing_inputs_fail_fast (some sampleRecord) (some emptyPayload) none okEnv
    (some "doc@example.com") fmtDateC "5/2/2024" (Or.inr (Or.inr rfl))

/-- C3.  The analysis-history row shows the completed/processed
indicator (`ClipboardList`) exactly when the backend's authoritative
completion flag `drawing_processed` is `true`; in every other state the
row shows the spinner, so the user never observes the complete indicator
while the flag is still false or null. -/
theorem c3_complete_indicator_iff_processed (a : AnalysisListItem) :
    (itemIcon a = HistoryIcon.clipboardList ↔ a.drawing_processed = some true) ∧
    (itemIcon a = HistoryIcon.loader2 ↔ a.drawing_processed ≠ some true) := by
  rcases a with ⟨i, t, d, ad, p⟩
  rcases p with _ | b
  · simp [itemIcon, showProcessedIcon]
  · rcases b with _ | _
    · simp [itemIcon, showProcessedIcon]
    · simp [itemIcon, showProcessedIcon]

/-- C5.  In the modelled reconciliation schedule (job first observed
with `backendComplete = false`), the visual stage is `Analyzing` for the
first 9 time units, `Generating` for the next 3, and `Finalizing` at time
12; the `Finalizing → Complete` timer fires at time 13 and completes
exactly when the authoritative flag is already true, being withheld
otherwise; the stage is never `Complete` before time 13 nor while the
flag is false; and a job whose completion update arrives at or before
time 13 is `Complete` from time 13 on — within 9+3+1 units and never
earlier. -/
theorem c5_stage_schedule (arrival : Option ℕ) :
    (∀ t, t < 9 → visualStage arrival t = Stage.analyzing) ∧
    (∀ t, 9 ≤ t → t < 12 → visualStage arrival t = Stage.generating) ∧
    (visualStage arrival 12 = Stage.finalizing) ∧
    (visualStage arrival 13 = Stage.complete ↔ backendCompleteAt arrival 13 = true) ∧
    (∀ t, visualStage arrival t = Stage.complete →
      13 ≤ t ∧ backendCompleteAt arrival t = true) ∧
    (∀ a, arrival = some a → a ≤ 13 → ∀ t, 13 ≤ t →
      visualStage arrival t = Stage.complete) := by
  have hc : ∀ t, visualStage arrival t = (engineClosed arrival t).1 := fun t => by
    rw [visualStage, engineState_eq_closed]
  refine ⟨?_, ?_, ?_, ?_, ?_, ?_⟩
  · intro t ht
    rw [hc, engineClosed]
    simp [ht]
  · intro t h9 h12
    rw [hc, engineClosed]
    have : ¬ t < 9 := by omega
    simp [this, h12]
  · rw [hc, engineClosed]
    norm_num
  · rw [hc, engineClosed]
    by_cases hb : backendCompleteAt arrival 13 = true
    · simp [hb]
    · simp [hb]
  · intro t ht
    rw [hc, engineClosed] at ht
    by_cases h9 : t < 9
    · simp [h9] at ht
    · by_cases h12 : t < 12
      · simp [h9, h12] at ht
      · by_cases hcomp : 13 ≤ t ∧ backendCompleteAt arrival t = true
        · exact hcomp
        · simp [h9, h12, hcomp] at ht
  · rintro a rfl ha t ht
    rw [hc, engineClosed]
    have h9 : ¬ t < 9 := by omega
    have h12 : ¬ t < 12 := by omega
    have hb : backendCompleteAt (some a) t = true := by
      simp only [backendCompleteAt, decide_eq_true_eq]
      omega
    simp [h9, h12, ht, hb]

/-- C5 (witness).  A job whose update arrives at time 5 is still
`Analyzing` at time 3 and `Complete` at time 13 — never earlier. -/
theorem c5_stage_schedule_witness :
    visualStage (some 5) 3 = Stage.analyzing ∧
    visualStage (some 5) 13 = Stage.complete :=
  ⟨(c5_stage_schedule (some 5)).1 3 (by norm_num),
   (c5_stage_schedule (some 5)).2.2.2.2.2 5 rfl (by norm_num) 13 (by norm_num)⟩

set_option maxRecDepth 60000

/-- C2.  Every text value of the result payload and record (narrative,
tone, long-text fields, each list item, client name, drawing type,
analyst identifier) passes through `escapeHtml`, which removes every raw
angle bracket, double quote and apostrophe (proved for all strings), so
the input `<script>alert(1)</script>` placed in any of those fields
occurs in the rendered markup only as the escaped entities
`&lt;script&gt;alert(1)&lt;/script&gt;` and never as a live
`<script` tag: checked for the four narrative/list fields of
`scriptPayloadA`, the four of `scriptPayloadB`, and the client name,
drawing type and analyst fields of `scriptHeaderOut`. -/
theorem c2_text_values_escaped :
    (∀ s : String, noRawMarkup (escapeHtml s) = true) ∧
    escapeHtml scriptStr = escScriptStr ∧
    containsSubS "<script" (analysisSectionsHtml scriptPayloadA) = false ∧
    containsSubS escScriptStr (analysisSectionsHtml scriptPayloadA) = true ∧
    containsSubS "<script" (analysisSectionsHtml scriptPayloadB) = false ∧
    containsSubS escScriptStr (analysisSectionsHtml scriptPayloadB) = true ∧
    containsSubS "<script" scriptHeaderOut = false ∧
    containsSubS escScriptStr scriptHeaderOut = true :=
  ⟨escapeHtml_noRawMarkup, rfl, rfl, rfl, rfl, rfl, rfl, rfl⟩

/-- C7 (counterexample).  The claim orders all list-field sections before
the remaining long-text sections.  In the code, the long-text section
Relational Aspects is emitted between the list sections: for a payload
with only `relational_aspects` and `potential_conflicts` present, the
Relational Aspects heading appears at index 64, before the Potential
Conflicts heading at index 301. -/
theorem c7_counterexample :
    idxOfSubS "<h2>Relational Aspects</h2>" (analysisSectionsHtml conflictPayload)
      = some 64 ∧
    idxOfSubS "<h2>Potential Conflicts</h2>" (analysisSectionsHtml conflictPayload)
      = some 301 ∧
    64 < 301 :=
  ⟨rfl, rfl, by norm_num⟩

/-- C7 (amended).  For every result payload the rendered document's
sections appear in the fixed source order Summary → Emotional Tone →
Key Observations → Relational Aspects → Potential Conflicts → Potential
Strengths → Interpretive Indicators → Developmental Considerations
(`analysisSectionsHtml` is exactly the concatenation of the eight blocks
of `sectionBlocks` in that order), and any field that is absent or empty
contributes the empty block, producing no empty heading; the heading
positions of two concrete payloads confirm the emitted order. -/
theorem c7_sections_fixed_order :
    (∀ pa, analysisSectionsHtml pa = String.join (sectionBlocks pa)) ∧
    (∀ t, renderSection t none = "" ∧ renderSection t (some "") = "") ∧
    (∀ t, renderListSection t none = "" ∧ renderListSection t (some []) = "") ∧
    idxOfSubS "<h2>Summary</h2>" (analysisSectionsHtml orderPayloadA) = some 64 ∧
    idxOfSubS "<h2>Emotional Tone</h2>" (analysisSectionsHtml orderPayloadA) = some 276 ∧
    idxOfSubS "<h2>Key Observations</h2>" (analysisSectionsHtml orderPayloadA) = some 495 ∧
    idxOfSubS "<h2>Relational Aspects</h2>" (analysisSectionsHtml orderPayloadA) = some 726 ∧
    idxOfSubS "<h2>Potential Conflicts</h2>" (analysisSectionsHtml orderPayloadB) = some 64 ∧
    idxOfSubS "<h2>Potential Strengths</h2>" (analysisSectionsHtml orderPayloadB) = some 298 ∧
    idxOfSubS "<h2>Interpretive Indicators</h2>" (analysisSectionsHtml orderPayloadB)
      = some 532 ∧
    idxOfSubS "<h2>Developmental Considerations</h2>" (analysisSectionsHtml orderPayloadB)
      = some 770 := by
  refine ⟨fun pa => rfl, fun t => ⟨rfl, rfl⟩, fun t => ⟨rfl, rfl⟩,
    rfl, rfl, rfl, rfl, rfl, rfl, rfl, rfl⟩

/-- C8.  The rendered document never depends on the `ai_disclaimer`
field: `populateTemplate` produces the same output whatever that field
holds (it is never added to the section list), and a concrete sentinel
disclaimer present in the payload does not occur in the rendered
output. -/
theorem c8_disclaimer_never_rendered :
    (∀ (analysis : Option AnalysisDetails) (pa : ParsedAnalysis)
      (url sessionEmail : Option String) (fmtDate : String → String)
      (genDate : String) (d : Option String),
      populateTemplate analysis (some { pa with ai_disclaimer := d }) url
          sessionEmail fmtDate genDate
        = populateTemplate analysis (some pa) url sessionEmail fmtDate genDate) ∧
    containsSubS disclaimerSentinel disclaimerOut = false := by
  constructor
  · intro analysis pa url se fd gd d
    have hsec : analysisSectionsHtml { pa with ai_disclaimer := d }
        = analysisSectionsHtml pa := by
      rcases pa with ⟨s1, s2, s3, s4, s5, s6, s7, s8, s9, s10⟩
      rfl
    rcases analysis with _ | a
    · rfl
    rcases url with _ | u
    · rfl
    by_cases hu : u.isEmpty
    · simp [populateTemplate, hu]
    · simp [populateTemplate, hu, hsec]
  · rfl

end PsychDraw
